import Mathlib

/-!
# sphere-go-led-controller: animated images, on/off panes, render loop and serial handshake

A shallow embedding of `ui/util.go`, `ui/OnOffPane.go` and `LedController.go`.
Go methods that mutate their receiver become functions returning the new receiver
next to their result; a Go panic (index out of range) is `none`; effects on the
outside world (device calls, callbacks, serial writes) are recorded in lists.
-/

namespace ui

/-- The Go type `Image`: the cursor `pos` (a Go `int`) and the frame slice. The type
`α` stands for `*image.RGBA`. -/
structure Image (α : Type) where
  pos : Int
  frames : List α

/-- Go slice indexing `s[i]` with an `int` index: `none` is the run-time panic. -/
def index {α : Type} (s : List α) (i : Int) : Option α :=
  if 0 ≤ i then s.get? i.toNat else none

/-- `Image.GetNextFrame`: increment the cursor, reset it to 0 when it has reached
`len(frames)`, and return the frame under the new cursor. The increment cannot
overflow for a cursor below `len(frames)`. -/
def Image.GetNextFrame {α : Type} (i : Image α) : Image α × Option α :=
  let pos1 := i.pos + 1
  let pos2 := if pos1 ≥ (i.frames.length : Int) then 0 else pos1
  ({ i with pos := pos2 }, index i.frames pos2)

/-- The receiver after `k` consecutive calls of `GetNextFrame`. -/
def Image.afterCalls {α : Type} (i : Image α) : Nat → Image α
  | 0 => i
  | k + 1 => (Image.afterCalls i k).GetNextFrame.1

/-- The value returned by the `k`-th of `k` consecutive calls of `GetNextFrame`
(`k ≥ 1`; for `k = 0` there is no call and the value is `none`). -/
def Image.kthFrame {α : Type} (i : Image α) : Nat → Option α
  | 0 => none
  | k + 1 => (Image.afterCalls i k).GetNextFrame.2

/-- The cursor positions after each of `k` consecutive calls, in call order. -/
def Image.cursorTrace {α : Type} (i : Image α) (k : Nat) : List Int :=
  (List.range k).map (fun j => (Image.afterCalls i (j + 1)).pos)


/-- Go `strings.Contains(s, substr)`: some suffix of `s` starts with `substr`. -/
def stringsContains (s substr : String) : Bool :=
  s.toList.tails.any (fun t => substr.toList.isPrefixOf t)

/-- What an `OnOffPane` does to the world outside the struct, in program order.
The type `D` stands for `*ninja.ServiceClient`. -/
inductive PaneEffect (D : Type) where
  /-- The statement `device.Call(method, nil, nil, 0)`. -/
  | call (device : D) (method : String)
  /-- The statement `p.onStateChange(state)`. -/
  | onStateChange (state : Bool)
  /-- The statement `go func() { time.Sleep(ms); p.ignoringGestures = false }()`. -/
  | sleeperStarted (ms : Nat)
  deriving DecidableEq, Repr

/-- The Go struct `OnOffPane` without its logger and connection. -/
structure OnOffPane (D α : Type) where
  devices : List D
  state : Bool
  onImage : Image α
  offImage : Image α
  ignoringGestures : Bool

/-- `OnOffPane.SetState`. -/
def OnOffPane.SetState {D α : Type} (p : OnOffPane D α) (state : Bool) :
    OnOffPane D α × List (PaneEffect D) :=
  let p1 := { p with state := state }
  let calls := p1.devices.map (fun device =>
    if state then PaneEffect.call device "turnOn" else PaneEffect.call device "turnOff")
  (p1, calls ++ [PaneEffect.onStateChange state])

/-- `OnOffPane.Gesture`; the argument is `gesture.Touch.Name()`. -/
def OnOffPane.Gesture {D α : Type} (p : OnOffPane D α) (touchName : String) :
    OnOffPane D α × List (PaneEffect D) :=
  if p.ignoringGestures then (p, [])
  else if stringsContains touchName "Tap" then
    let p1 := { p with ignoringGestures := true }
    let r := p1.SetState (!p1.state)
    (r.1, PaneEffect.sleeperStarted 250 :: r.2)
  else (p, [])

/-- Events of the pane machine: a gesture with its touch name, and the wake-up of a
goroutine started by `Gesture` once its 250 ms sleep is over. -/
inductive PaneEvent where
  | gesture (touchName : String)
  | debounceExpired
  deriving DecidableEq, Repr

/-- A pane together with the goroutines it has started that are still asleep and
the effects it has had so far. -/
structure PaneMachine (D α : Type) where
  pane : OnOffPane D α
  sleepers : Nat
  effects : List (PaneEffect D)

/-- The number of sleeping goroutines started by a list of effects. -/
def sleepersStarted {D : Type} (es : List (PaneEffect D)) : Nat :=
  (es.filter (fun e => match e with
    | PaneEffect.sleeperStarted _ => true
    | _ => false)).length

/-- The number of `onStateChange` callbacks in a list of effects: one per `SetState`. -/
def setStateCalls {D : Type} (es : List (PaneEffect D)) : Nat :=
  (es.filter (fun e => match e with
    | PaneEffect.onStateChange _ => true
    | _ => false)).length

/-- One event of the pane machine. A `debounceExpired` needs a sleeping goroutine;
it runs `p.ignoringGestures = false`. -/
def PaneMachine.step {D α : Type} (m : PaneMachine D α) : PaneEvent → PaneMachine D α
  | PaneEvent.gesture touchName =>
    let r := m.pane.Gesture touchName
    { pane := r.1, sleepers := m.sleepers + sleepersStarted r.2, effects := m.effects ++ r.2 }
  | PaneEvent.debounceExpired =>
    if m.sleepers = 0 then m
    else { m with pane := { m.pane with ignoringGestures := false }, sleepers := m.sleepers - 1 }

/-- A heater pane that is off, with two devices; images are numbered frames. -/
def samplePane : OnOffPane String Nat :=
  { devices := ["heater-1", "heater-2"]
    state := false
    onImage := { pos := 0, frames := [10, 11, 12] }
    offImage := { pos := 0, frames := [20] }
    ignoringGestures := false }

/-- The machine of `samplePane` before any event. -/
def sampleMachine : PaneMachine String Nat :=
  { pane := samplePane, sleepers := 0, effects := [] }

/-- The number of `debounceExpired` events in a list of events. -/
def expiries (es : List PaneEvent) : Nat :=
  es.count PaneEvent.debounceExpired

/-- A run of the pane machine over a list of events. -/
def PaneMachine.run {D α : Type} (m : PaneMachine D α) (es : List PaneEvent) : PaneMachine D α :=
  es.foldl PaneMachine.step m

/-- Rounding to the nearest integer, a tie going to the even neighbour. -/
def roundHalfEven (x : ℚ) : Int :=
  if x - ⌊x⌋ < 1 / 2 then ⌊x⌋
  else if 1 / 2 < x - ⌊x⌋ then ⌊x⌋ + 1
  else if ⌊x⌋ % 2 = 0 then ⌊x⌋ else ⌊x⌋ + 1

/-- The float64 nearest to a magnitude `x ≥ 0`: the spacing of the float64 grid
around `x` is `2 ^ (e - 52)` for the exponent `e` of `x`, which is not below -1022
(the subnormal range), and `x` goes to the nearest multiple of it, a tie to the even
one. Magnitudes beyond the largest float64 are not turned into an infinity. -/
def roundMagnitude (x : ℚ) : ℚ :=
  roundHalfEven (x / 2 ^ (max (Int.log 2 x) (-1022) - 52)) * 2 ^ (max (Int.log 2 x) (-1022) - 52)

/-- The float64 that an exact result `x` is rounded to (IEEE 754 round to nearest,
ties to even), as the rational number it stands for. -/
def roundFloat64 (x : ℚ) : ℚ :=
  if x < 0 then -roundMagnitude (-x) else roundMagnitude x

/-- The Go conversion `int(f)` of a float64 to a 64-bit `int`: the fraction is
dropped. For a value outside the range of `int` the language leaves the result to the
implementation; the conversion instruction of amd64 gives the least `int`. -/
def float64ToInt (f : ℚ) : Int :=
  if f < -(2 ^ 63) ∨ 2 ^ 63 ≤ f then -(2 ^ 63)
  else if 0 ≤ f then ⌊f⌋ else ⌈f⌉

/-- The local `frameNumber` of `Image.GetPositionFrame`:
`math.Min(float64(len(i.frames)-1), math.Floor(position*float64(len(i.frames))))`.
The conversions of the two integers and the product are rounded to float64;
`math.Floor` and `math.Min` are exact. -/
def Image.frameNumber {α : Type} (i : Image α) (position : ℚ) : ℚ :=
  min (roundFloat64 (((i.frames.length : Int) - 1 : Int) : ℚ))
    ((⌊roundFloat64 (position * roundFloat64 ((i.frames.length : Int) : ℚ))⌋ : Int) : ℚ)

/-- The index `int(frameNumber)` that `Image.GetPositionFrame` uses. -/
def Image.positionIndex {α : Type} (i : Image α) (position : ℚ) : Int :=
  float64ToInt (i.frameNumber position)

/-- `Image.GetPositionFrame`, for a finite `position`. -/
def Image.GetPositionFrame {α : Type} (i : Image α) (position : ℚ) : Option α :=
  index i.frames (i.positionIndex position)

end ui

namespace led

/-- The Go type `image.RGBA` reduced to its bounds and its pixel bytes (four per
pixel, row by row). -/
structure RGBA where
  width : Nat
  height : Nat
  pix : List Nat
  deriving DecidableEq, Repr

/-- The call `image.NewRGBA(image.Rect(0, 0, w, h))`: all samples zero. -/
def NewRGBA (w h : Nat) : RGBA :=
  { width := w, height := h, pix := List.replicate (4 * w * h) 0 }

/-- Modelled from the spec: the visual state of `ui.PairingLayout`, whose Go source
is not among the files embedded here, "one of: idle/blank, pairing code, solid color,
icon, fading-shrinking color with a deadline". A colour is a Go `color.Color`
interface value, `none` being nil. -/
inductive PairingVisual (Col : Type) where
  | idle
  | code (code : String)
  | color (c : Option Col)
  | icon (name : String)
  | fadingShrinkingColor (c : Option Col) (duration : Int)
  deriving DecidableEq, Repr

/-- Modelled from the spec: `ui.PairingLayout`, holding a "single current visual
state"; "last command always supersedes the previous state immediately". -/
structure PairingLayout (Col : Type) where
  visual : PairingVisual Col
  deriving DecidableEq, Repr

/-- Modelled from the spec: `showCode(code)`. -/
def PairingLayout.ShowCode {Col : Type} (_l : PairingLayout Col) (code : String) :
    PairingLayout Col :=
  { visual := PairingVisual.code code }

/-- Modelled from the spec: `showColor(color)`. -/
def PairingLayout.ShowColor {Col : Type} (_l : PairingLayout Col) (c : Option Col) :
    PairingLayout Col :=
  { visual := PairingVisual.color c }

/-- Modelled from the spec: `showIcon(name)`. -/
def PairingLayout.ShowIcon {Col : Type} (_l : PairingLayout Col) (name : String) :
    PairingLayout Col :=
  { visual := PairingVisual.icon name }

/-- Modelled from the spec: `showFadingShrinkingColor(color, durationMs)`. -/
def PairingLayout.ShowFadingShrinkingColor {Col : Type} (_l : PairingLayout Col)
    (c : Option Col) (d : Int) : PairingLayout Col :=
  { visual := PairingVisual.fadingShrinkingColor c d }

/-- The serial port `io.ReadWriteCloser`: the baud rate it was opened with, whether
it is still open, and every image handed to `util.WriteLEDMatrix` on it, oldest
first (an image is a `*image.RGBA`, `none` being nil). -/
structure Serial where
  baud : Nat
  isOpen : Bool
  written : List (Option RGBA)
  deriving DecidableEq, Repr

/-- The collaborators of the controller that live outside `LedController.go`.
`Col` is `colorful.Color` and `L` is `ui.PaneLayout`. -/
structure Env (Col L : Type) where
  /-- The library function `colorful.Hex`: the colour and the error (`none` is nil). -/
  Hex : String → Col × Option String
  /-- The layout built by `getPaneLayout`, whose constructors are taken to succeed. -/
  newLayout : L
  /-- The method `ui.PaneLayout.Render`: the layout afterwards, the image, whether the
  wake channel is non-nil, and the error. -/
  Render : L → L × Option RGBA × Bool × Option String
  /-- The method `ui.PairingLayout.Render`: the image and the error. -/
  RenderPairing : PairingLayout Col → Option RGBA × Option String
  /-- How long `util.WriteLEDMatrix` takes, in milliseconds, for the write that
  follows `n` earlier ones; `none` when it never returns. -/
  writeTime : Nat → Option Nat

/-- The Go struct `LedController`. The connection is left out. The channel `waiting`
is unbuffered and has one receiver, the render loop: its state is whether that
receiver is parked in the `select` on `wake` and `c.waiting`. -/
structure LedController (Col L : Type) where
  controlEnabled : Bool
  controlLayout : Option L
  pairingLayout : PairingLayout Col
  serial : Serial
  waiting : Bool

/-- How a piece of the program ends: it goes on, the process has exited
(`os.Exit`, `log.Fatalf`), or it is blocked for ever in a call that never returns. -/
inductive Run (σ : Type) where
  | ok (s : σ)
  | exited (s : σ)
  | stuck (s : σ)
  deriving DecidableEq, Repr

/-- The controller at the point where a piece of the program has ended. -/
def Run.state {σ : Type} : Run σ → σ
  | Run.ok s => s
  | Run.exited s => s
  | Run.stuck s => s

/-- Modelled from the spec: `util.WriteLEDMatrix`, of package `util`, whose Go source
is not among the files embedded here: "written as a single contiguous write call per
frame". The image is appended to what the port has received. -/
def WriteLEDMatrix (img : Option RGBA) (s : Serial) : Serial :=
  { s with written := s.written ++ [img] }

/-- The method `gotCommand`: a non-blocking send on `c.waiting`. It is received only
if the render loop is parked on the channel, which then goes on; otherwise the
`default` branch runs and nothing happens. -/
def LedController.gotCommand {Col L : Type} (c : LedController Col L) : LedController Col L :=
  if c.waiting then { c with waiting := false } else c

/-- The method `EnableControl`. -/
def LedController.EnableControl {Col L : Type} (c : LedController Col L) :
    LedController Col L × Option String :=
  (({ c with controlEnabled := true } : LedController Col L).gotCommand, none)

/-- The method `DisableControl`. -/
def LedController.DisableControl {Col L : Type} (c : LedController Col L) :
    LedController Col L × Option String :=
  (({ c with controlEnabled := false } : LedController Col L).gotCommand, none)

/-- The request type `ColorRequest`. -/
structure ColorRequest where
  Color : String
  DisplayTime : Int
  deriving DecidableEq, Repr

/-- The method `DisplayColor`. -/
def LedController.DisplayColor {Col L : Type} (env : Env Col L) (c : LedController Col L)
    (req : ColorRequest) : LedController Col L × Option String :=
  let r := env.Hex req.Color
  match r.2 with
  | some err => (c, some err)
  | none =>
    let c1 : LedController Col L := { c with controlEnabled := false }
    let c2 : LedController Col L :=
      { c1 with pairingLayout := c1.pairingLayout.ShowColor (some r.1) }
    (c2.gotCommand, none)

/-- Modelled from the spec: the request type `ResetMode` of package `model`, whose Go
source is not among the files embedded here: "mode, duration, hold". The duration is
a signed Go integer (a `time.Duration`), which `DisplayResetMode` compares with
`> 0`. -/
structure ResetMode where
  Mode : String
  Duration : Int
  Hold : Bool
  deriving DecidableEq, Repr

/-- The method `DisplayResetMode`. -/
def LedController.DisplayResetMode {Col L : Type} (env : Env Col L) (c : LedController Col L)
    (m : ResetMode) : LedController Col L × Option String :=
  let c1 : LedController Col L := { c with controlEnabled := false }
  let fade : Bool := decide (m.Duration > 0) && !m.Hold
  let sw : Option Col × Bool :=
    if m.Mode = "reboot" then (some (env.Hex "#00FF00").1, false)
    else if m.Mode = "reset-userdata" then (some (env.Hex "#FFFF00").1, false)
    else if m.Mode = "reset-root" then (some (env.Hex "#FF0000").1, false)
    else (none, true)
  let col := sw.1
  let loading := sw.2
  let c2 : LedController Col L :=
    if loading then { c1 with pairingLayout := c1.pairingLayout.ShowIcon "loading.gif" }
    else if fade then
      { c1 with pairingLayout := c1.pairingLayout.ShowFadingShrinkingColor col m.Duration }
    else { c1 with pairingLayout := c1.pairingLayout.ShowColor col }
  (c2.gotCommand, none)

/-- The sentence on reset modes, in its own words: a known mode's colour is "shown as
fading-shrinking unless `hold` is set (then steady) and unless duration is zero (then
steady)". -/
def resetDisplayAsStated {Col : Type} (m : ResetMode) (col : Option Col) : PairingVisual Col :=
  if m.Hold = true ∨ m.Duration = 0 then PairingVisual.color col
  else PairingVisual.fadingShrinkingColor col m.Duration

/-- The same sentence with "duration is zero" widened to "duration is zero or
negative". -/
def resetDisplay {Col : Type} (m : ResetMode) (col : Option Col) : PairingVisual Col :=
  if m.Hold = true ∨ m.Duration ≤ 0 then PairingVisual.color col
  else PairingVisual.fadingShrinkingColor col m.Duration

/-- A write of the render loop that is not raced against a timer: the loop goes on
when the write returns, however late, and is blocked for ever when it does not. -/
def plainWrite {Col L : Type} (env : Env Col L) (c : LedController Col L) (img : Option RGBA) :
    Run (LedController Col L) :=
  let c1 : LedController Col L := { c with serial := WriteLEDMatrix img c.serial }
  match env.writeTime c.serial.written.length with
  | some _ => Run.ok c1
  | none => Run.stuck c1

/-- The write of the interactive branch: `WriteLEDMatrix` runs in a goroutine and the
loop selects between `frameWritten` and `time.After(10 * time.Second)`; when the timer
wins the process exits. -/
def watchdogWrite {Col L : Type} (env : Env Col L) (c : LedController Col L)
    (img : Option RGBA) : Run (LedController Col L) :=
  let c1 : LedController Col L := { c with serial := WriteLEDMatrix img c.serial }
  match env.writeTime c.serial.written.length with
  | some d => if d ≤ 10000 then Run.ok c1 else Run.exited c1
  | none => Run.exited c1

/-- The interactive branch of the loop body from `c.controlLayout.Render()` on, for
the layout `layout` that `c.controlLayout` points to. A layout that is asleep returns
a wake channel, and the loop then parks in the `select` on `wake` and `c.waiting`. -/
def LedController.renderControl {Col L : Type} (env : Env Col L) (c : LedController Col L)
    (layout : L) : Run (LedController Col L) :=
  let r := env.Render layout
  let c1 : LedController Col L := { c with controlLayout := some r.1 }
  match r.2.2.2 with
  | some _ => Run.exited c1
  | none =>
    match watchdogWrite env c1 r.2.1 with
    | Run.ok c2 => if r.2.2.1 then Run.ok { c2 with waiting := true } else Run.ok c2
    | other => other

/-- One iteration of the `for` loop of `LedController.start`. A loop parked in the
`select` on `wake` and `c.waiting` stays where it is until it is woken. -/
def LedController.tick {Col L : Type} (env : Env Col L) (c : LedController Col L) :
    Run (LedController Col L) :=
  if c.waiting then Run.ok c
  else if c.controlEnabled then
    match c.controlLayout with
    | none =>
      match plainWrite env c (some (NewRGBA 16 16)) with
      | Run.ok c1 =>
        LedController.renderControl env { c1 with controlLayout := some env.newLayout }
          env.newLayout
      | other => other
    | some layout => LedController.renderControl env c layout
  else
    let r := env.RenderPairing c.pairingLayout
    match r.2 with
    | some _ => Run.exited c
    | none => plainWrite env c r.1

/-- The layout's own wake channel fires while the loop is parked. -/
def LedController.layoutWake {Col L : Type} (c : LedController Col L) : LedController Col L :=
  { c with waiting := false }

/-- Iterations of the loop, one after another, for as long as the loop goes on. -/
def LedController.ticks {Col L : Type} (env : Env Col L) :
    Nat → LedController Col L → Run (LedController Col L)
  | 0, c => Run.ok c
  | n + 1, c =>
    match LedController.tick env c with
    | Run.ok c1 => LedController.ticks env n c1
    | other => other

/-- What the device does when a connection is attempted: the port cannot be opened,
the port opens and the read of the init string fails, or the port opens and the read
returns these bytes. -/
inductive PortBehaviour where
  | openFails (err : String)
  | readFails (err : String)
  | reads (data : List Nat)
  deriving DecidableEq, Repr

/-- The external actions of `GetLEDConnection`, in program order. -/
inductive ConnEffect where
  | resetMatrix
  | openPort (baud : Nat)
  | readInit
  | closePort (baud : Nat)
  deriving DecidableEq, Repr

/-- How `GetLEDConnection` ends: `(s, nil)`, `(nil, err)`, or the process exits in
`log.Fatalf` before the function returns. -/
inductive ConnResult where
  | ok (s : Serial)
  | error (err : String)
  | fatal
  deriving DecidableEq, Repr

/-- The buffer `buf` after `s.Read(buf)`: sixteen zero bytes, overwritten from the
front by what the read delivered. -/
def initBuffer (data : List Nat) : List Nat :=
  data.take 16 ++ List.replicate (16 - data.length) 0

/-- The bytes of a string of ASCII characters. -/
def bytesOf (s : String) : List Nat := s.toList.map Char.toNat

/-- The bytes of the Go string literal `"LED"`. -/
def ledMagic : List Nat := bytesOf "LED"

/-- The function `GetLEDConnection`, against a device that behaves as `port`. -/
def GetLEDConnection (port : PortBehaviour) (baudRate : Nat) : ConnResult × List ConnEffect :=
  match port with
  | PortBehaviour.openFails err =>
    (ConnResult.error err, [ConnEffect.resetMatrix, ConnEffect.openPort baudRate])
  | PortBehaviour.readFails _ =>
    (ConnResult.fatal, [ConnEffect.resetMatrix, ConnEffect.openPort baudRate, ConnEffect.readInit])
  | PortBehaviour.reads data =>
    let buf := initBuffer data
    if buf.take 3 ≠ ledMagic then
      (ConnResult.error "Bad init string..",
        [ConnEffect.resetMatrix, ConnEffect.openPort baudRate, ConnEffect.readInit,
          ConnEffect.closePort baudRate])
    else
      (ConnResult.ok { baud := baudRate, isOpen := true, written := [] },
        [ConnEffect.resetMatrix, ConnEffect.openPort baudRate, ConnEffect.readInit])

/-- The constant `baudRate`. -/
def baudRate : Nat := 115200

/-- How `NewLedController` ends: with a controller, with the process exited in
`log.Fatalf`, or blocked in the first write. -/
inductive StartResult (Col L : Type) where
  | controller (c : LedController Col L)
  | fatal
  | stuck

/-- Whether `NewLedController` ended in `log.Fatalf`. -/
def StartResult.isFatal {Col L : Type} : StartResult Col L → Bool
  | StartResult.fatal => true
  | _ => false

/-- A run of `NewLedController`: the baud rates passed to `GetLEDConnection`, in
call order, the external actions of those calls, and the outcome. -/
structure Startup (Col L : Type) where
  attempts : List Nat
  effects : List ConnEffect
  result : StartResult Col L

/-- The rest of `NewLedController` once a port `s` is open: the blank image is
written and the controller is built, with a pairing layout in its initial state. The
export of the service on the connection is left out. -/
def NewLedController.finish {Col L : Type} (env : Env Col L) (s : Serial) : StartResult Col L :=
  match env.writeTime s.written.length with
  | none => StartResult.stuck
  | some _ =>
    StartResult.controller
      { controlEnabled := false
        controlLayout := none
        pairingLayout := { visual := PairingVisual.idle }
        serial := WriteLEDMatrix (some (NewRGBA 16 16)) s
        waiting := false }

/-- The function `NewLedController`. The device behaves as `dev n b` on the call of
`GetLEDConnection` that follows `n` earlier calls and asks for baud rate `b`. -/
def NewLedController {Col L : Type} (env : Env Col L) (dev : Nat → Nat → PortBehaviour) :
    Startup Col L :=
  let r1 := GetLEDConnection (dev 0 (baudRate * 2)) (baudRate * 2)
  match r1.1 with
  | ConnResult.ok s =>
    { attempts := [baudRate * 2], effects := r1.2, result := NewLedController.finish env s }
  | ConnResult.fatal =>
    { attempts := [baudRate * 2], effects := r1.2, result := StartResult.fatal }
  | ConnResult.error _ =>
    let r2 := GetLEDConnection (dev 1 baudRate) baudRate
    match r2.1 with
    | ConnResult.ok s =>
      { attempts := [baudRate * 2, baudRate], effects := r1.2 ++ r2.2,
        result := NewLedController.finish env s }
    | _ =>
      { attempts := [baudRate * 2, baudRate], effects := r1.2 ++ r2.2,
        result := StartResult.fatal }

/-- A device whose init string cannot be read on the first attempt and that would
answer `LED-v1` on a second one. -/
def readFailsOnce (n : Nat) (_baud : Nat) : PortBehaviour :=
  if n = 0 then PortBehaviour.readFails "i/o timeout" else PortBehaviour.reads (bytesOf "LED-v1")

/-- A device that answers `ERR` at the double rate and `LED-v1` at the nominal rate. -/
def slowDevice (_n : Nat) (baud : Nat) : PortBehaviour :=
  if baud = 230400 then PortBehaviour.reads (bytesOf "ERR") else PortBehaviour.reads (bytesOf "LED-v1")

/-- The value of a hexadecimal digit. -/
def hexDigit (c : Char) : Option Nat :=
  if '0' ≤ c ∧ c ≤ '9' then some (c.toNat - '0'.toNat)
  else if 'a' ≤ c ∧ c ≤ 'f' then some (c.toNat - 'a'.toNat + 10)
  else if 'A' ≤ c ∧ c ≤ 'F' then some (c.toNat - 'A'.toNat + 10)
  else none

/-- A parser in the place of `colorful.Hex` at the concrete inputs below: a `#` and
six hexadecimal digits give the three channels, anything else the zero colour and an
error. -/
def sampleHex (s : String) : (Nat × Nat × Nat) × Option String :=
  match s.toList with
  | ['#', r1, r0, g1, g0, b1, b0] =>
    match hexDigit r1, hexDigit r0, hexDigit g1, hexDigit g0, hexDigit b1, hexDigit b0 with
    | some x1, some x0, some y1, some y0, some z1, some z0 =>
      ((16 * x1 + x0, 16 * y1 + y0, 16 * z1 + z0), none)
    | _, _, _, _, _, _ => ((0, 0, 0), some "color: not a hex-color")
  | _ => ((0, 0, 0), some "color: not a hex-color")

/-- The one-pixel image with the given sample in every channel. -/
def dot (v : Nat) : RGBA :=
  { width := 1, height := 1, pix := [v, v, v, v] }

/-- An environment for the concrete inputs below. A layout is the number of times it
has been rendered, and renders that number; every write returns after
`writeMillis` milliseconds. -/
def sampleEnv (writeMillis : Option Nat) : Env (Nat × Nat × Nat) Nat :=
  { Hex := sampleHex
    newLayout := 0
    Render := fun l => (l + 1, some (dot l), false, none)
    RenderPairing := fun _ => (some (dot 255), none)
    writeTime := fun _ => writeMillis }

/-- A controller in pairing mode whose interactive layout has been built and rendered
seven times; the blank image of start-up is all the port has received. -/
def sampleController : LedController (Nat × Nat × Nat) Nat :=
  { controlEnabled := false
    controlLayout := some 7
    pairingLayout := { visual := PairingVisual.code "1234" }
    serial := { baud := 230400, isOpen := true, written := [some (NewRGBA 16 16)] }
    waiting := false }

end led

section ImageLemmas

open ui

theorem ui.afterCalls_frames {α : Type} (i : Image α) (k : Nat) :
    (i.afterCalls k).frames = i.frames := by
  induction k with
  | zero => rfl
  | succ k ih => simp [Image.afterCalls, Image.GetNextFrame, ih]

theorem ui.afterCalls_pos {α : Type} (i : Image α) (h0 : 0 ≤ i.pos)
    (h1 : i.pos < i.frames.length) (k : Nat) :
    (i.afterCalls k).pos = (i.pos + k) % (i.frames.length : Int) := by
  induction k with
  | zero =>
    simp [Image.afterCalls]
    exact (Int.emod_eq_of_lt h0 h1).symm
  | succ k ih =>
    have hN : (0 : Int) < i.frames.length := lt_of_le_of_lt h0 h1
    simp only [Image.afterCalls, Image.GetNextFrame, ui.afterCalls_frames, ih]
    have hlt : (i.pos + k) % (i.frames.length : Int) < i.frames.length :=
      Int.emod_lt_of_pos _ hN
    have hge : 0 ≤ (i.pos + k) % (i.frames.length : Int) := Int.emod_nonneg _ (ne_of_gt hN)
    have hstep : (i.pos + ((k + 1 : Nat) : Int)) % (i.frames.length : Int)
        = ((i.pos + k) % (i.frames.length : Int) + 1) % (i.frames.length : Int) := by
      push_cast
      rw [← add_assoc, Int.add_emod, Int.add_emod ((i.pos + k) % _) 1, Int.emod_emod]
    rw [hstep]
    split_ifs with hc
    · have : (i.pos + k) % (i.frames.length : Int) + 1 = i.frames.length := by omega
      rw [this, Int.emod_self]
    · exact (Int.emod_eq_of_lt (by omega) (by omega)).symm

theorem ui.kthFrame_succ {α : Type} (i : Image α) (k : Nat) :
    i.kthFrame (k + 1) = index i.frames (i.afterCalls (k + 1)).pos := by
  simp [Image.kthFrame, Image.afterCalls, Image.GetNextFrame, ui.afterCalls_frames]

theorem ui.index_of_mem_range {α : Type} (s : List α) (j : Int) (h0 : 0 ≤ j)
    (h1 : j < s.length) : index s j = s.get? j.toNat ∧ (index s j).isSome = true := by
  have hlt : j.toNat < s.length := by omega
  simp [index, h0, hlt]

end ImageLemmas

/-- C1: for an image with `N ≥ 1` frames and cursor `c` in `[0, N)`, after `k`
consecutive calls of `GetNextFrame` the cursor is `(c + k) mod N`, still inside
`[0, N)`, and the frames are untouched; the `k`-th call (`k ≥ 1`) returns
`frames[(c + k) mod N]` without panicking; after `N` calls the cursor is back at `c`
and the `N`-th call has returned `frames[c]`; a 5-frame image with cursor 0 visits the
cursor positions 1, 2, 3, 4, 0. -/
theorem GetNextFrame_cyclic {α : Type} (i : ui.Image α)
    (hN : 1 ≤ i.frames.length) (h0 : 0 ≤ i.pos) (h1 : i.pos < i.frames.length) :
    (∀ k : Nat, (i.afterCalls k).pos = (i.pos + k) % (i.frames.length : Int)
        ∧ (i.afterCalls k).frames = i.frames
        ∧ 0 ≤ (i.afterCalls k).pos ∧ (i.afterCalls k).pos < i.frames.length)
    ∧ (∀ k : Nat, 1 ≤ k →
        i.kthFrame k = i.frames.get? ((i.pos + k) % (i.frames.length : Int)).toNat
        ∧ (i.kthFrame k).isSome = true)
    ∧ (i.afterCalls i.frames.length).pos = i.pos
    ∧ i.kthFrame i.frames.length = i.frames.get? i.pos.toNat
    ∧ (i.frames.length = 5 → i.pos = 0 → i.cursorTrace 5 = [1, 2, 3, 4, 0]) := by
  have hpos : (0 : Int) < i.frames.length := by exact_mod_cast hN
  have hrange : ∀ k : Nat, 0 ≤ (i.pos + k) % (i.frames.length : Int)
      ∧ (i.pos + k) % (i.frames.length : Int) < i.frames.length :=
    fun k => ⟨Int.emod_nonneg _ (ne_of_gt hpos), Int.emod_lt_of_pos _ hpos⟩
  have hkth : ∀ k : Nat, 1 ≤ k →
      i.kthFrame k = i.frames.get? ((i.pos + k) % (i.frames.length : Int)).toNat
      ∧ (i.kthFrame k).isSome = true := by
    intro k hk
    obtain ⟨j, rfl⟩ : ∃ j, k = j + 1 := ⟨k - 1, by omega⟩
    rw [ui.kthFrame_succ, ui.afterCalls_pos i h0 h1]
    exact ui.index_of_mem_range _ _ (hrange _).1 (hrange _).2
  have hback : (i.pos + (i.frames.length : Int)) % (i.frames.length : Int) = i.pos := by
    rw [Int.add_emod_self]
    exact Int.emod_eq_of_lt h0 h1
  refine ⟨?_, hkth, ?_, ?_, ?_⟩
  · intro k
    rw [ui.afterCalls_pos i h0 h1 k]
    exact ⟨rfl, ui.afterCalls_frames i k, (hrange k).1, (hrange k).2⟩
  · rw [ui.afterCalls_pos i h0 h1, hback]
  · rw [(hkth _ hN).1, hback]
  · intro h5 hz
    simp [ui.Image.cursorTrace, List.range, List.range.loop, ui.afterCalls_pos i h0 h1, h5, hz]

/-- C1 at a 3-frame image of strings with the cursor on its last frame. -/
theorem GetNextFrame_cyclic_witness :
    ((({ pos := 2, frames := ["a", "b", "c"] } : ui.Image String).afterCalls 3).pos = 2)
    ∧ ({ pos := 2, frames := ["a", "b", "c"] } : ui.Image String).kthFrame 3 = some "c" :=
  ⟨(GetNextFrame_cyclic ({ pos := 2, frames := ["a", "b", "c"] } : ui.Image String)
      (by decide) (by decide) (by decide)).2.2.1,
    (GetNextFrame_cyclic ({ pos := 2, frames := ["a", "b", "c"] } : ui.Image String)
      (by decide) (by decide) (by decide)).2.2.2.1⟩

section FloatLemmas

open ui

theorem ui.roundHalfEven_intCast (n : Int) : roundHalfEven (n : ℚ) = n := by
  simp [roundHalfEven]

theorem ui.roundHalfEven_bounds (x : ℚ) :
    ⌊x⌋ ≤ roundHalfEven x ∧ roundHalfEven x ≤ ⌊x⌋ + 1 := by
  unfold roundHalfEven
  split_ifs <;> constructor <;> omega

theorem ui.roundHalfEven_mono {a b : ℚ} (h : a ≤ b) : roundHalfEven a ≤ roundHalfEven b := by
  have hfl : ⌊a⌋ ≤ ⌊b⌋ := Int.floor_mono h
  rcases lt_or_eq_of_le hfl with hlt | heq
  · have ha := (ui.roundHalfEven_bounds a).2
    have hb := (ui.roundHalfEven_bounds b).1
    omega
  · unfold roundHalfEven
    rw [heq]
    have hab : a - (⌊b⌋ : ℚ) ≤ b - (⌊b⌋ : ℚ) := by linarith
    split_ifs <;> first | omega | (exfalso; linarith)

theorem ui.roundHalfEven_nonneg {x : ℚ} (h : 0 ≤ x) : 0 ≤ roundHalfEven x := by
  have := ui.roundHalfEven_mono h
  rwa [show ((0 : ℚ)) = ((0 : Int) : ℚ) by simp, ui.roundHalfEven_intCast] at this

theorem ui.roundMagnitude_nonneg {x : ℚ} (h : 0 ≤ x) : 0 ≤ roundMagnitude x := by
  unfold roundMagnitude
  have hu : (0 : ℚ) < 2 ^ (max (Int.log 2 x) (-1022) - 52) := zpow_pos (by norm_num) _
  have hr : 0 ≤ roundHalfEven (x / 2 ^ (max (Int.log 2 x) (-1022) - 52)) :=
    ui.roundHalfEven_nonneg (div_nonneg h hu.le)
  have hr' : (0 : ℚ) ≤ (roundHalfEven (x / 2 ^ (max (Int.log 2 x) (-1022) - 52)) : ℚ) := by
    exact_mod_cast hr
  exact mul_nonneg hr' hu.le

theorem ui.roundMagnitude_zero : roundMagnitude 0 = 0 := by
  simp [roundMagnitude, roundHalfEven]

/-- A magnitude below `2 ^ (e + 1)` on the grid of exponent `e` rounds to at most
`2 ^ (e + 1)`. -/
theorem ui.round_le_binade_top (x : ℚ) (e : Int) (hx : x < 2 ^ (e + 1)) :
    (roundHalfEven (x / 2 ^ (e - 52)) : ℚ) * 2 ^ (e - 52) ≤ 2 ^ (e + 1) := by
  have hu : (0 : ℚ) < 2 ^ (e - 52) := zpow_pos (by norm_num) _
  have hsplit : (2 : ℚ) ^ (e + 1) = ((2 ^ 53 : Int) : ℚ) * 2 ^ (e - 52) := by
    have : (2 : ℚ) ^ (e + 1) = 2 ^ (53 : Int) * 2 ^ (e - 52) := by
      rw [← zpow_add₀ (by norm_num : (2 : ℚ) ≠ 0)]
      congr 1
      ring
    rw [this]
    norm_num
  have hq : x / 2 ^ (e - 52) ≤ ((2 ^ 53 : Int) : ℚ) := by
    rw [div_le_iff₀ hu, ← hsplit]
    exact hx.le
  have hr := ui.roundHalfEven_mono hq
  rw [ui.roundHalfEven_intCast] at hr
  rw [hsplit]
  have hr' : (roundHalfEven (x / 2 ^ (e - 52)) : ℚ) ≤ ((2 ^ 53 : Int) : ℚ) := by
    exact_mod_cast hr
  exact mul_le_mul_of_nonneg_right hr' hu.le

/-- A magnitude of at least `2 ^ e` on the grid of exponent `e` rounds to at least
`2 ^ e`. -/
theorem ui.binade_bottom_le_round (x : ℚ) (e : Int) (hx : 2 ^ e ≤ x) :
    (2 : ℚ) ^ e ≤ (roundHalfEven (x / 2 ^ (e - 52)) : ℚ) * 2 ^ (e - 52) := by
  have hu : (0 : ℚ) < 2 ^ (e - 52) := zpow_pos (by norm_num) _
  have hsplit : (2 : ℚ) ^ e = ((2 ^ 52 : Int) : ℚ) * 2 ^ (e - 52) := by
    have : (2 : ℚ) ^ e = 2 ^ (52 : Int) * 2 ^ (e - 52) := by
      rw [← zpow_add₀ (by norm_num : (2 : ℚ) ≠ 0)]
      congr 1
      ring
    rw [this]
    norm_num
  have hq : ((2 ^ 52 : Int) : ℚ) ≤ x / 2 ^ (e - 52) := by
    rw [le_div_iff₀ hu, ← hsplit]
    exact hx
  have hr := ui.roundHalfEven_mono hq
  rw [ui.roundHalfEven_intCast] at hr
  rw [hsplit]
  have hr' : ((2 ^ 52 : Int) : ℚ) ≤ (roundHalfEven (x / 2 ^ (e - 52)) : ℚ) := by
    exact_mod_cast hr
  exact mul_le_mul_of_nonneg_right hr' hu.le

theorem ui.roundMagnitude_mono {a b : ℚ} (ha : 0 ≤ a) (h : a ≤ b) :
    roundMagnitude a ≤ roundMagnitude b := by
  rcases eq_or_lt_of_le ha with h0 | hpos
  · rw [← h0, ui.roundMagnitude_zero]
    exact ui.roundMagnitude_nonneg (le_trans ha h)
  · have hbpos : 0 < b := lt_of_lt_of_le hpos h
    have hlog : Int.log 2 a ≤ Int.log 2 b := Int.log_mono_right hpos h
    have he : max (Int.log 2 a) (-1022) ≤ max (Int.log 2 b) (-1022) :=
      max_le_max hlog le_rfl
    rcases eq_or_lt_of_le he with heq | hlt
    · unfold roundMagnitude
      rw [heq]
      have hu : (0 : ℚ) < 2 ^ (max (Int.log 2 b) (-1022) - 52) := zpow_pos (by norm_num) _
      have hq : a / 2 ^ (max (Int.log 2 b) (-1022) - 52)
          ≤ b / 2 ^ (max (Int.log 2 b) (-1022) - 52) := div_le_div_of_nonneg_right h hu.le
      have hr := ui.roundHalfEven_mono hq
      have hr' : (roundHalfEven (a / 2 ^ (max (Int.log 2 b) (-1022) - 52)) : ℚ)
          ≤ (roundHalfEven (b / 2 ^ (max (Int.log 2 b) (-1022) - 52)) : ℚ) := by
        exact_mod_cast hr
      exact mul_le_mul_of_nonneg_right hr' hu.le
    · have hbe : max (Int.log 2 b) (-1022) = Int.log 2 b := by
        rcases le_total (Int.log 2 b) (-1022) with hle | hge
        · exfalso
          rw [max_eq_right hle] at hlt
          have := le_max_right (Int.log 2 a) (-1022)
          omega
        · exact max_eq_left hge
      have hax : a < 2 ^ (max (Int.log 2 a) (-1022) + 1) := by
        have h1 : a < ((2 : ℕ) : ℚ) ^ (Int.log 2 a + 1) :=
          Int.lt_zpow_succ_log_self (by norm_num) a
        have h2 : ((2 : ℕ) : ℚ) ^ (Int.log 2 a + 1)
            ≤ ((2 : ℕ) : ℚ) ^ (max (Int.log 2 a) (-1022) + 1) :=
          zpow_le_zpow_right₀ (by norm_num) (by have := le_max_left (Int.log 2 a) (-1022); omega)
        have h3 := lt_of_lt_of_le h1 h2
        simpa using h3
      have hbx : (2 : ℚ) ^ (Int.log 2 b) ≤ b := by
        have := Int.zpow_log_le_self (b := 2) (by norm_num) hbpos
        simpa using this
      have htop := ui.round_le_binade_top a (max (Int.log 2 a) (-1022)) hax
      have hbot := ui.binade_bottom_le_round b (Int.log 2 b) hbx
      have hmid : (2 : ℚ) ^ (max (Int.log 2 a) (-1022) + 1) ≤ 2 ^ (Int.log 2 b) :=
        zpow_le_zpow_right₀ (by norm_num) (by omega)
      unfold roundMagnitude
      rw [hbe]
      exact le_trans htop (le_trans hmid hbot)

theorem ui.roundFloat64_mono {a b : ℚ} (h : a ≤ b) : roundFloat64 a ≤ roundFloat64 b := by
  unfold roundFloat64
  by_cases ha : a < 0
  · by_cases hb : b < 0
    · rw [if_pos ha, if_pos hb]
      have := ui.roundMagnitude_mono (a := -b) (b := -a) (by linarith) (by linarith)
      linarith
    · rw [if_pos ha, if_neg hb]
      have h1 := ui.roundMagnitude_nonneg (x := -a) (by linarith)
      have h2 := ui.roundMagnitude_nonneg (x := b) (by linarith)
      linarith
  · have hb : ¬ b < 0 := by
      intro hb
      exact ha (lt_of_le_of_lt h hb)
    rw [if_neg ha, if_neg hb]
    exact ui.roundMagnitude_mono (by linarith) h

/-- Every natural number below `2 ^ 53` is a float64. -/
theorem ui.roundFloat64_natCast (n : Nat) (h : n < 2 ^ 53) : roundFloat64 (n : ℚ) = n := by
  have hnn : ¬ ((n : ℚ) < 0) := by
    have : (0 : ℚ) ≤ n := Nat.cast_nonneg n
    linarith
  unfold roundFloat64
  rw [if_neg hnn]
  unfold roundMagnitude
  rw [Int.log_natCast]
  have hlog : Nat.log 2 n < 53 := by
    rcases Nat.eq_zero_or_pos n with h0 | hpos
    · subst h0
      simp
    · exact Nat.log_lt_of_lt_pow (by omega) h
  have he : max ((Nat.log 2 n : Nat) : Int) (-1022) = (Nat.log 2 n : Int) := by
    apply max_eq_left
    omega
  rw [he]
  obtain ⟨j, hj⟩ : ∃ j : Nat, ((Nat.log 2 n : Nat) : Int) - 52 = -(j : Int) :=
    ⟨52 - Nat.log 2 n, by omega⟩
  rw [hj, zpow_neg, zpow_natCast]
  have hpow : (0 : ℚ) < 2 ^ j := pow_pos (by norm_num) j
  have hq : (n : ℚ) / (2 ^ j)⁻¹ = (((n * 2 ^ j : Nat) : Int) : ℚ) := by
    rw [div_inv_eq_mul]
    push_cast
    ring
  rw [hq, ui.roundHalfEven_intCast]
  push_cast
  field_simp

end FloatLemmas

section PositionLemmas

open ui

theorem ui.float64ToInt_intCast (z : Int) (hhi : z < 2 ^ 63) :
    float64ToInt (z : ℚ) = if z < -(2 ^ 63) then -(2 ^ 63) else z := by
  unfold float64ToInt
  have hhi' : ¬ ((2 : ℚ) ^ 63 ≤ (z : ℚ)) := by
    have : (z : ℚ) < ((2 ^ 63 : Int) : ℚ) := by exact_mod_cast hhi
    push_cast at this
    linarith
  by_cases hlo : z < -(2 ^ 63)
  · have hlo' : (z : ℚ) < -(2 ^ 63) := by
      have : (z : ℚ) < ((-(2 ^ 63) : Int) : ℚ) := by exact_mod_cast hlo
      push_cast at this
      exact this
    rw [if_pos (Or.inl hlo'), if_pos hlo]
  · have hlo' : ¬ ((z : ℚ) < -(2 ^ 63)) := by
      intro hc
      apply hlo
      have : (z : ℚ) < ((-(2 ^ 63) : Int) : ℚ) := by
        push_cast
        exact hc
      exact_mod_cast this
    rw [if_neg (by tauto), if_neg hlo]
    split_ifs <;> simp

/-- With a frame count below `2 ^ 53` the two conversions are exact, and the index is
the lesser of `len - 1` and the floor of the rounded product, as an `int`. -/
theorem ui.positionIndex_eq {α : Type} (i : Image α) (hN : 1 ≤ i.frames.length)
    (hrep : i.frames.length < 2 ^ 53) (p : ℚ) :
    i.positionIndex p =
      if min ((i.frames.length : Int) - 1) ⌊roundFloat64 (p * (i.frames.length : ℚ))⌋
          < -(2 ^ 63) then -(2 ^ 63)
      else min ((i.frames.length : Int) - 1) ⌊roundFloat64 (p * (i.frames.length : ℚ))⌋ := by
  have h1 : roundFloat64 ((((i.frames.length : Int) - 1 : Int)) : ℚ)
      = (((i.frames.length : Int) - 1 : Int) : ℚ) := by
    have hc : (((i.frames.length : Int) - 1 : Int) : ℚ) = ((i.frames.length - 1 : Nat) : ℚ) := by
      have : ((i.frames.length : Int) - 1 : Int) = ((i.frames.length - 1 : Nat) : Int) := by
        omega
      rw [this]
      simp
    rw [hc]
    exact ui.roundFloat64_natCast _ (by omega)
  have h2 : roundFloat64 (((i.frames.length : Int)) : ℚ) = (i.frames.length : ℚ) := by
    have := ui.roundFloat64_natCast i.frames.length hrep
    simpa using this
  unfold Image.positionIndex Image.frameNumber
  rw [h1, h2, ← Int.cast_min]
  apply ui.float64ToInt_intCast
  have : min ((i.frames.length : Int) - 1) ⌊roundFloat64 (p * (i.frames.length : ℚ))⌋
      ≤ (i.frames.length : Int) - 1 := min_le_left _ _
  have hb : ((i.frames.length : Nat) : Int) < 2 ^ 53 := by exact_mod_cast hrep
  omega

end PositionLemmas

/-- C2: for an image with `N ≥ 1` frames (`N` below `2 ^ 53`, as every slice length
that fits in memory is), the index that `GetPositionFrame` computes in float64
arithmetic is 0 at position 0, is `N - 1` at position 1, lies in `[0, N)` for every
position in `[0, 1]`, where the call returns the frame at that index without
panicking, and does not decrease when the position grows. -/
theorem GetPositionFrame_index_monotone {α : Type} (i : ui.Image α)
    (hN : 1 ≤ i.frames.length) (hrep : i.frames.length < 2 ^ 53) :
    i.positionIndex 0 = 0
    ∧ i.positionIndex 1 = (i.frames.length : Int) - 1
    ∧ (∀ p : ℚ, 0 ≤ p → p ≤ 1 →
        0 ≤ i.positionIndex p ∧ i.positionIndex p < i.frames.length
        ∧ i.positionIndex p
            = min ((i.frames.length : Int) - 1) ⌊ui.roundFloat64 (p * (i.frames.length : ℚ))⌋
        ∧ i.GetPositionFrame p = i.frames.get? (i.positionIndex p).toNat
        ∧ (i.GetPositionFrame p).isSome = true)
    ∧ (∀ p q : ℚ, p ≤ q → i.positionIndex p ≤ i.positionIndex q) := by
  have hNpos : (0 : ℚ) ≤ (i.frames.length : ℚ) := Nat.cast_nonneg _
  have hNint : (1 : Int) ≤ (i.frames.length : Int) := by exact_mod_cast hN
  have hzero : ui.roundFloat64 0 = 0 := by
    have := ui.roundFloat64_natCast 0 (by norm_num)
    simpa using this
  have hfloor0 : ∀ p : ℚ, 0 ≤ p → 0 ≤ ⌊ui.roundFloat64 (p * (i.frames.length : ℚ))⌋ := by
    intro p hp
    have h1 : ui.roundFloat64 0 ≤ ui.roundFloat64 (p * (i.frames.length : ℚ)) :=
      ui.roundFloat64_mono (mul_nonneg hp hNpos)
    rw [hzero] at h1
    exact Int.floor_nonneg.mpr h1
  have hrange : ∀ p : ℚ, 0 ≤ p →
      0 ≤ i.positionIndex p ∧ i.positionIndex p < i.frames.length
      ∧ i.positionIndex p
          = min ((i.frames.length : Int) - 1) ⌊ui.roundFloat64 (p * (i.frames.length : ℚ))⌋ := by
    intro p hp
    have hf := hfloor0 p hp
    have hmin0 : 0 ≤ min ((i.frames.length : Int) - 1)
        ⌊ui.roundFloat64 (p * (i.frames.length : ℚ))⌋ := le_min (by omega) hf
    have hminN : min ((i.frames.length : Int) - 1)
        ⌊ui.roundFloat64 (p * (i.frames.length : ℚ))⌋ ≤ (i.frames.length : Int) - 1 :=
      min_le_left _ _
    rw [ui.positionIndex_eq i hN hrep p, if_neg (by omega)]
    exact ⟨hmin0, by omega, rfl⟩
  refine ⟨?_, ?_, ?_, ?_⟩
  · have h := (hrange 0 le_rfl).2.2
    rw [h, zero_mul, hzero, Int.floor_zero]
    exact min_eq_right (by omega)
  · have h := (hrange 1 zero_le_one).2.2
    rw [h, one_mul, ui.roundFloat64_natCast _ hrep, Int.floor_natCast]
    exact min_eq_left (by omega)
  · intro p hp0 _
    have h := hrange p hp0
    refine ⟨h.1, h.2.1, h.2.2, ?_⟩
    exact ui.index_of_mem_range _ _ h.1 h.2.1
  · intro p q hpq
    have hprod : p * (i.frames.length : ℚ) ≤ q * (i.frames.length : ℚ) :=
      mul_le_mul_of_nonneg_right hpq hNpos
    have hfl : ⌊ui.roundFloat64 (p * (i.frames.length : ℚ))⌋
        ≤ ⌊ui.roundFloat64 (q * (i.frames.length : ℚ))⌋ :=
      Int.floor_mono (ui.roundFloat64_mono hprod)
    have hmin : min ((i.frames.length : Int) - 1) ⌊ui.roundFloat64 (p * (i.frames.length : ℚ))⌋
        ≤ min ((i.frames.length : Int) - 1) ⌊ui.roundFloat64 (q * (i.frames.length : ℚ))⌋ :=
      min_le_min le_rfl hfl
    rw [ui.positionIndex_eq i hN hrep p, ui.positionIndex_eq i hN hrep q]
    split_ifs <;> omega

/-- C2 at a three-frame image: position 1 selects index 2, the last frame. -/
theorem GetPositionFrame_index_monotone_witness :
    ({ pos := 0, frames := ["a", "b", "c"] } : ui.Image String).positionIndex 1 = 2 :=
  (GetPositionFrame_index_monotone ({ pos := 0, frames := ["a", "b", "c"] } : ui.Image String)
    (by decide) (by decide)).2.1

section PaneLemmas

open ui

theorem ui.Gesture_ignoring {D α : Type} (p : OnOffPane D α) (name : String)
    (h : p.ignoringGestures = true) : p.Gesture name = (p, []) := by
  simp [OnOffPane.Gesture, h]

theorem ui.Gesture_nonTap {D α : Type} (p : OnOffPane D α) (name : String)
    (h : stringsContains name "Tap" = false) : p.Gesture name = (p, []) := by
  simp [OnOffPane.Gesture, h]

theorem ui.Gesture_tap {D α : Type} (p : OnOffPane D α) (name : String)
    (hi : p.ignoringGestures = false) (h : stringsContains name "Tap" = true) :
    p.Gesture name =
      ({ p with ignoringGestures := true, state := !p.state },
        PaneEffect.sleeperStarted 250 ::
          (p.devices.map (fun device =>
            if (!p.state) = true then PaneEffect.call device "turnOn"
            else PaneEffect.call device "turnOff")
          ++ [PaneEffect.onStateChange (!p.state)])) := by
  simp [OnOffPane.Gesture, OnOffPane.SetState, hi, h]

theorem ui.sleepersStarted_calls {D : Type} (ds : List D) (s : Bool) :
    sleepersStarted (ds.map (fun device =>
      if s = true then PaneEffect.call device "turnOn"
      else PaneEffect.call device "turnOff")) = 0 := by
  induction ds with
  | nil => rfl
  | cons d ds ih =>
    cases s <;> simp [sleepersStarted, List.filter]

theorem ui.setStateCalls_calls {D : Type} (ds : List D) (s : Bool) :
    setStateCalls (ds.map (fun device =>
      if s = true then PaneEffect.call device "turnOn"
      else PaneEffect.call device "turnOff")) = 0 := by
  induction ds with
  | nil => rfl
  | cons d ds ih =>
    cases s <;> simp [setStateCalls, List.filter]

theorem ui.sleepersStarted_append {D : Type} (a b : List (PaneEffect D)) :
    sleepersStarted (a ++ b) = sleepersStarted a + sleepersStarted b := by
  simp [sleepersStarted]

theorem ui.setStateCalls_append {D : Type} (a b : List (PaneEffect D)) :
    setStateCalls (a ++ b) = setStateCalls a + setStateCalls b := by
  simp [setStateCalls]

theorem ui.sleepersStarted_cons_sleeper {D : Type} (ms : Nat) (es : List (PaneEffect D)) :
    sleepersStarted (PaneEffect.sleeperStarted ms :: es) = sleepersStarted es + 1 := by
  simp [sleepersStarted]

theorem ui.setStateCalls_cons_sleeper {D : Type} (ms : Nat) (es : List (PaneEffect D)) :
    setStateCalls (PaneEffect.sleeperStarted ms :: es) = setStateCalls es := by
  simp [setStateCalls]

theorem ui.sleepersStarted_callback {D : Type} (s : Bool) :
    sleepersStarted ([PaneEffect.onStateChange s] : List (PaneEffect D)) = 0 := by
  simp [sleepersStarted]

theorem ui.setStateCalls_callback {D : Type} (s : Bool) :
    setStateCalls ([PaneEffect.onStateChange s] : List (PaneEffect D)) = 1 := by
  simp [setStateCalls]

theorem ui.step_gesture_ignoring {D α : Type} (m : PaneMachine D α) (name : String)
    (h : m.pane.ignoringGestures = true) : m.step (PaneEvent.gesture name) = m := by
  simp [PaneMachine.step, ui.Gesture_ignoring m.pane name h, sleepersStarted]

theorem ui.run_gestures_ignoring {D α : Type} (m : PaneMachine D α) (names : List String)
    (h : m.pane.ignoringGestures = true) : m.run (names.map PaneEvent.gesture) = m := by
  induction names with
  | nil => rfl
  | cons n ns ih =>
    simp only [PaneMachine.run, List.map_cons, List.foldl_cons, ui.step_gesture_ignoring m n h]
    exact ih

theorem ui.step_gesture_tap {D α : Type} (m : PaneMachine D α) (name : String)
    (hi : m.pane.ignoringGestures = false) (h : stringsContains name "Tap" = true) :
    m.step (PaneEvent.gesture name) =
      { pane := { m.pane with ignoringGestures := true, state := !m.pane.state }
        sleepers := m.sleepers + 1
        effects := m.effects ++ PaneEffect.sleeperStarted 250 ::
          (m.pane.devices.map (fun device =>
            if (!m.pane.state) = true then PaneEffect.call device "turnOn"
            else PaneEffect.call device "turnOff")
          ++ [PaneEffect.onStateChange (!m.pane.state)]) } := by
  have hs : sleepersStarted (PaneEffect.sleeperStarted 250 ::
      (m.pane.devices.map (fun device =>
        if (!m.pane.state) = true then PaneEffect.call device "turnOn"
        else PaneEffect.call device "turnOff")
      ++ [PaneEffect.onStateChange (!m.pane.state)])) = 1 := by
    rw [ui.sleepersStarted_cons_sleeper, ui.sleepersStarted_append,
      ui.sleepersStarted_calls, ui.sleepersStarted_callback]
  simp only [PaneMachine.step, ui.Gesture_tap m.pane name hi h, hs]

end PaneLemmas

/-- C10: `SetState(s)` sets the state to `s`, issues one command to each device in
list order (`turnOn` to all when `s` is true, `turnOff` to all when it is false),
then invokes the callback once with `s`, and leaves devices, images and
`ignoringGestures` as they were; an accepted tap runs `SetState` with the negation of
the current state, after starting the 250 ms sleeper. -/
theorem SetState_commands_then_callback {D α : Type} (p : ui.OnOffPane D α) (s : Bool) :
    (p.SetState s).1.state = s
    ∧ (p.SetState s).2 =
        p.devices.map (fun d => ui.PaneEffect.call d (if s then "turnOn" else "turnOff"))
          ++ [ui.PaneEffect.onStateChange s]
    ∧ (p.SetState s).1.devices = p.devices
    ∧ (p.SetState s).1.onImage = p.onImage
    ∧ (p.SetState s).1.offImage = p.offImage
    ∧ (p.SetState s).1.ignoringGestures = p.ignoringGestures
    ∧ (∀ name : String, p.ignoringGestures = false → ui.stringsContains name "Tap" = true →
        (p.Gesture name).1 = (({ p with ignoringGestures := true } :
            ui.OnOffPane D α).SetState (!p.state)).1
        ∧ (p.Gesture name).2 = ui.PaneEffect.sleeperStarted 250 ::
            (({ p with ignoringGestures := true } : ui.OnOffPane D α).SetState (!p.state)).2
        ∧ (p.Gesture name).1.state = !p.state) := by
  refine ⟨rfl, ?_, rfl, rfl, rfl, rfl, ?_⟩
  · cases s <;> simp [ui.OnOffPane.SetState]
  · intro name hi ht
    simp [ui.OnOffPane.Gesture, ui.OnOffPane.SetState, hi, ht]

/-- C10 at a heater pane with two devices that is off: the tap `TapNorth` starts the
sleeper, sends `turnOn` to both devices in order and then calls back with `true`. -/
theorem SetState_commands_then_callback_witness :
    (ui.samplePane.Gesture "TapNorth").2
    = [ui.PaneEffect.sleeperStarted 250, ui.PaneEffect.call "heater-1" "turnOn",
        ui.PaneEffect.call "heater-2" "turnOn", ui.PaneEffect.onStateChange true] :=
  ((SetState_commands_then_callback ui.samplePane true).2.2.2.2.2.2
    "TapNorth" rfl (by decide)).2.1

section DebounceLemmas

open ui

theorem ui.setStateCalls_step_tap {D α : Type} (m : PaneMachine D α) (name : String)
    (hi : m.pane.ignoringGestures = false) (h : stringsContains name "Tap" = true) :
    setStateCalls (m.step (PaneEvent.gesture name)).effects = setStateCalls m.effects + 1 := by
  rw [ui.step_gesture_tap m name hi h]
  simp only []
  rw [ui.setStateCalls_append, ui.setStateCalls_cons_sleeper, ui.setStateCalls_append,
    ui.setStateCalls_calls, ui.setStateCalls_callback]

theorem ui.step_gesture_nonTap {D α : Type} (m : PaneMachine D α) (name : String)
    (h : stringsContains name "Tap" = false) : m.step (PaneEvent.gesture name) = m := by
  simp [PaneMachine.step, ui.Gesture_nonTap m.pane name h, sleepersStarted]

/-- The bookkeeping invariant of the machine is kept by every event, and a step adds
a `SetState` only by using up the permission that an expiry has given. -/
theorem ui.step_budget {D α : Type} (m : PaneMachine D α) (e : PaneEvent)
    (hinv : m.sleepers = (if m.pane.ignoringGestures then 1 else 0)) :
    (m.step e).sleepers = (if (m.step e).pane.ignoringGestures then 1 else 0)
    ∧ setStateCalls (m.step e).effects + (if (m.step e).pane.ignoringGestures then 0 else 1)
        ≤ setStateCalls m.effects + (if m.pane.ignoringGestures then 0 else 1)
          + expiries [e] := by
  cases e with
  | gesture name =>
    cases hi : m.pane.ignoringGestures with
    | true =>
      rw [ui.step_gesture_ignoring m name hi]
      simp [hi] at hinv ⊢
      exact hinv
    | false =>
      cases ht : stringsContains name "Tap" with
      | false =>
        rw [ui.step_gesture_nonTap m name ht]
        simp [hi] at hinv ⊢
        exact hinv
      | true =>
        have hc := ui.setStateCalls_step_tap m name hi ht
        rw [hc, ui.step_gesture_tap m name hi ht]
        simp [hi] at hinv ⊢
        omega
  | debounceExpired =>
    cases hi : m.pane.ignoringGestures with
    | true =>
      simp [hi] at hinv
      simp [PaneMachine.step, hinv, expiries]
    | false =>
      simp [hi] at hinv
      simp [PaneMachine.step, hinv, hi, expiries]

theorem ui.expiries_cons (e : PaneEvent) (es : List PaneEvent) :
    expiries (e :: es) = expiries [e] + expiries es := by
  simp only [expiries, List.count_cons, List.count_nil]
  omega

theorem ui.run_budget {D α : Type} (es : List PaneEvent) :
    ∀ m : PaneMachine D α, m.sleepers = (if m.pane.ignoringGestures then 1 else 0) →
      (m.run es).sleepers = (if (m.run es).pane.ignoringGestures then 1 else 0)
      ∧ setStateCalls (m.run es).effects + (if (m.run es).pane.ignoringGestures then 0 else 1)
          ≤ setStateCalls m.effects + (if m.pane.ignoringGestures then 0 else 1)
            + expiries es := by
  induction es with
  | nil =>
    intro m hinv
    exact ⟨hinv, by simp [PaneMachine.run, expiries]⟩
  | cons e es ih =>
    intro m hinv
    have hs := ui.step_budget m e hinv
    have hr := ih (m.step e) hs.1
    have hrun : m.run (e :: es) = (m.step e).run es := rfl
    rw [hrun, ui.expiries_cons]
    exact ⟨hr.1, by omega⟩

end DebounceLemmas

/-- C8: a gesture that arrives while `ignoringGestures` is set leaves the pane as it
is and has no effect (no `SetState`, no new sleeper), and so does any run of gestures;
after an accepted tap, any further gestures before the expiry leave the machine where
that one tap put it: the state is toggled once, `SetState` has run once and one sleeper
has been started. Over any run of events, the number of `SetState` calls is bounded by
the number of expiries plus one. -/
theorem Gesture_debounce {D α : Type} (m : ui.PaneMachine D α) :
    (∀ name : String, m.pane.ignoringGestures = true → m.pane.Gesture name = (m.pane, []))
    ∧ (∀ names : List String, m.pane.ignoringGestures = true →
        m.run (names.map ui.PaneEvent.gesture) = m)
    ∧ (∀ (tap : String) (names : List String), m.pane.ignoringGestures = false →
        ui.stringsContains tap "Tap" = true →
        m.run (ui.PaneEvent.gesture tap :: names.map ui.PaneEvent.gesture)
          = m.step (ui.PaneEvent.gesture tap)
        ∧ (m.step (ui.PaneEvent.gesture tap)).pane.state = !m.pane.state
        ∧ (m.step (ui.PaneEvent.gesture tap)).pane.ignoringGestures = true
        ∧ ui.setStateCalls (m.step (ui.PaneEvent.gesture tap)).effects
            = ui.setStateCalls m.effects + 1
        ∧ (m.step (ui.PaneEvent.gesture tap)).sleepers = m.sleepers + 1)
    ∧ (∀ es : List ui.PaneEvent,
        m.sleepers = (if m.pane.ignoringGestures then 1 else 0) →
        (m.run es).sleepers = (if (m.run es).pane.ignoringGestures then 1 else 0)
        ∧ ui.setStateCalls (m.run es).effects
            + (if (m.run es).pane.ignoringGestures then 0 else 1)
          ≤ ui.setStateCalls m.effects + (if m.pane.ignoringGestures then 0 else 1)
            + ui.expiries es) := by
  refine ⟨fun name h => ui.Gesture_ignoring m.pane name h,
    fun names h => ui.run_gestures_ignoring m names h, ?_, fun es h => ui.run_budget es m h⟩
  intro tap names hi ht
  have hstep := ui.step_gesture_tap m tap hi ht
  have hign : (m.step (ui.PaneEvent.gesture tap)).pane.ignoringGestures = true := by
    rw [hstep]
  have hrun : m.run (ui.PaneEvent.gesture tap :: names.map ui.PaneEvent.gesture)
      = (m.step (ui.PaneEvent.gesture tap)).run (names.map ui.PaneEvent.gesture) := rfl
  refine ⟨?_, ?_, hign, ui.setStateCalls_step_tap m tap hi ht, ?_⟩
  · rw [hrun]
    exact ui.run_gestures_ignoring _ names hign
  · rw [hstep]
  · rw [hstep]

/-- C8 at a heater pane that is off: the taps `TapNorth` and `TapSouth`, with no expiry
between them, switch it on once and start one sleeper. -/
theorem Gesture_debounce_witness :
    (ui.sampleMachine.run [ui.PaneEvent.gesture "TapNorth", ui.PaneEvent.gesture "TapSouth"]
      = ui.sampleMachine.step (ui.PaneEvent.gesture "TapNorth"))
    ∧ (ui.sampleMachine.step (ui.PaneEvent.gesture "TapNorth")).pane.state = true
    ∧ ui.setStateCalls (ui.sampleMachine.step (ui.PaneEvent.gesture "TapNorth")).effects = 1 := by
  have h := (Gesture_debounce ui.sampleMachine).2.2.1 "TapNorth" ["TapSouth"] rfl (by decide)
  exact ⟨h.1, h.2.1, h.2.2.2.1⟩

/-- C4: when `colorful.Hex` rejects the colour string, `DisplayColor` returns that
error and the controller is exactly as before (control mode, pairing layout, serial
port and the parked loop, to which nothing is sent); when it accepts the string,
`DisplayColor` returns nil, control is disabled, the pairing layout shows that colour
and the wake signal is sent. -/
theorem DisplayColor_error_leaves_state {Col L : Type} (env : led.Env Col L)
    (c : led.LedController Col L) (req : led.ColorRequest) :
    (∀ err : String, (env.Hex req.Color).2 = some err →
        c.DisplayColor env req = (c, some err))
    ∧ ((env.Hex req.Color).2 = none →
        (c.DisplayColor env req).2 = none
        ∧ (c.DisplayColor env req).1.controlEnabled = false
        ∧ (c.DisplayColor env req).1.pairingLayout.visual
            = led.PairingVisual.color (some (env.Hex req.Color).1)
        ∧ (c.DisplayColor env req).1.waiting = false
        ∧ (c.DisplayColor env req).1.controlLayout = c.controlLayout
        ∧ (c.DisplayColor env req).1.serial = c.serial
        ∧ (c.DisplayColor env req).1
            = ({ c with controlEnabled := false,
                        pairingLayout := c.pairingLayout.ShowColor (some (env.Hex req.Color).1) } :
                led.LedController Col L).gotCommand) := by
  constructor
  · intro err h
    simp [led.LedController.DisplayColor, h]
  · intro h
    simp only [led.LedController.DisplayColor, h, led.LedController.gotCommand,
      led.PairingLayout.ShowColor]
    cases hw : c.waiting <;> simp

/-- C4 at the sample controller: the string `green` is rejected and nothing changes;
the string `#00FF00` is accepted and shown. -/
theorem DisplayColor_error_leaves_state_witness :
    led.sampleController.DisplayColor (led.sampleEnv (some 5))
        { Color := "green", DisplayTime := 0 }
      = (led.sampleController, some "color: not a hex-color")
    ∧ (led.sampleController.DisplayColor (led.sampleEnv (some 5))
        { Color := "#00FF00", DisplayTime := 0 }).1.pairingLayout.visual
      = led.PairingVisual.color (some (0, 255, 0)) :=
  ⟨(DisplayColor_error_leaves_state (led.sampleEnv (some 5)) led.sampleController
      { Color := "green", DisplayTime := 0 }).1 "color: not a hex-color" (by decide),
   ((DisplayColor_error_leaves_state (led.sampleEnv (some 5)) led.sampleController
      { Color := "#00FF00", DisplayTime := 0 }).2 (by decide)).2.2.1⟩


section ControllerLemmas

theorem led.gotCommand_pairingLayout {Col L : Type} (c : led.LedController Col L) :
    c.gotCommand.pairingLayout = c.pairingLayout := by
  unfold led.LedController.gotCommand
  split_ifs <;> rfl

theorem led.gotCommand_controlEnabled {Col L : Type} (c : led.LedController Col L) :
    c.gotCommand.controlEnabled = c.controlEnabled := by
  unfold led.LedController.gotCommand
  split_ifs <;> rfl

theorem led.DisplayResetMode_visual {Col L : Type} (env : led.Env Col L)
    (c : led.LedController Col L) (m : led.ResetMode) :
    (c.DisplayResetMode env m).1.pairingLayout.visual =
      if m.Mode = "reboot" then led.resetDisplay m (some (env.Hex "#00FF00").1)
      else if m.Mode = "reset-userdata" then led.resetDisplay m (some (env.Hex "#FFFF00").1)
      else if m.Mode = "reset-root" then led.resetDisplay m (some (env.Hex "#FF0000").1)
      else led.PairingVisual.icon "loading.gif" := by
  have hfade : ∀ col : Option Col,
      (if (decide (m.Duration > 0) && !m.Hold) = true
        then led.PairingVisual.fadingShrinkingColor col m.Duration
        else led.PairingVisual.color col) = led.resetDisplay m col := by
    intro col
    unfold led.resetDisplay
    cases m.Hold <;> by_cases hd : m.Duration ≤ 0 <;> simp [hd]
  have e12 : ¬ ("reset-userdata" = "reboot") := by decide
  have e13 : ¬ ("reset-root" = "reboot") := by decide
  have e23 : ¬ ("reset-root" = "reset-userdata") := by decide
  simp only [led.LedController.DisplayResetMode, led.gotCommand_pairingLayout]
  by_cases h1 : m.Mode = "reboot"
  · simp only [h1, if_true, Bool.false_eq_true, if_false, ← hfade]
    split_ifs <;> rfl
  · by_cases h2 : m.Mode = "reset-userdata"
    · simp only [h2, e12, if_true, Bool.false_eq_true, if_false, ← hfade]
      split_ifs <;> rfl
    · by_cases h3 : m.Mode = "reset-root"
      · simp only [h3, e13, e23, if_true, Bool.false_eq_true, if_false, ← hfade]
        split_ifs <;> rfl
      · simp only [h1, h2, h3, if_true, if_false]
        rfl

end ControllerLemmas

/-- C7, as stated, fails for a negative duration: for the request (reboot, -5 ms, no
hold) the sentence promises the fading-shrinking green, and `DisplayResetMode` shows
the steady green. -/
theorem DisplayResetMode_negative_duration_steady :
    (led.sampleController.DisplayResetMode (led.sampleEnv (some 5))
        { Mode := "reboot", Duration := -5, Hold := false }).1.pairingLayout.visual
      = led.PairingVisual.color (some (0, 255, 0))
    ∧ led.resetDisplayAsStated { Mode := "reboot", Duration := -5, Hold := false }
        (some ((led.sampleEnv (some 5)).Hex "#00FF00").1)
      = led.PairingVisual.fadingShrinkingColor (some (0, 255, 0)) (-5)
    ∧ (led.sampleController.DisplayResetMode (led.sampleEnv (some 5))
        { Mode := "reboot", Duration := -5, Hold := false }).1.pairingLayout.visual
      ≠ led.resetDisplayAsStated { Mode := "reboot", Duration := -5, Hold := false }
          (some ((led.sampleEnv (some 5)).Hex "#00FF00").1) := by
  refine ⟨by decide, by decide, by decide⟩

/-- C7, amended: `DisplayResetMode` returns nil and disables control; for `reboot`,
`reset-userdata` and `reset-root` it shows the colour that `colorful.Hex` gives for
`#00FF00`, `#FFFF00` and `#FF0000`, fading and shrinking over the given duration
unless hold is set or the duration is zero or negative, when the colour is steady; for
every other mode it shows the icon `loading.gif`, whatever the duration and hold. -/
theorem DisplayResetMode_display {Col L : Type} (env : led.Env Col L)
    (c : led.LedController Col L) (m : led.ResetMode) :
    (c.DisplayResetMode env m).2 = none
    ∧ (c.DisplayResetMode env m).1.controlEnabled = false
    ∧ (m.Mode = "reboot" → (c.DisplayResetMode env m).1.pairingLayout.visual
        = led.resetDisplay m (some (env.Hex "#00FF00").1))
    ∧ (m.Mode = "reset-userdata" → (c.DisplayResetMode env m).1.pairingLayout.visual
        = led.resetDisplay m (some (env.Hex "#FFFF00").1))
    ∧ (m.Mode = "reset-root" → (c.DisplayResetMode env m).1.pairingLayout.visual
        = led.resetDisplay m (some (env.Hex "#FF0000").1))
    ∧ (m.Mode ≠ "reboot" → m.Mode ≠ "reset-userdata" → m.Mode ≠ "reset-root" →
        (c.DisplayResetMode env m).1.pairingLayout.visual
          = led.PairingVisual.icon "loading.gif") := by
  have e12 : ¬ ("reset-userdata" = "reboot") := by decide
  have e13 : ¬ ("reset-root" = "reboot") := by decide
  have e23 : ¬ ("reset-root" = "reset-userdata") := by decide
  refine ⟨rfl, ?_, ?_, ?_, ?_, ?_⟩
  · simp only [led.LedController.DisplayResetMode, led.gotCommand_controlEnabled]
    split_ifs <;> rfl
  · intro h
    rw [led.DisplayResetMode_visual, if_pos h]
  · intro h
    rw [led.DisplayResetMode_visual, h, if_neg e12, if_pos rfl]
  · intro h
    rw [led.DisplayResetMode_visual, h, if_neg e13, if_neg e23, if_pos rfl]
  · intro h1 h2 h3
    rw [led.DisplayResetMode_visual, if_neg h1, if_neg h2, if_neg h3]

/-- C7 at the request (reboot, 2000 ms, no hold): the green of `#00FF00` fades and
shrinks over 2000 ms. -/
theorem DisplayResetMode_display_witness :
    (led.sampleController.DisplayResetMode (led.sampleEnv (some 5))
        { Mode := "reboot", Duration := 2000, Hold := false }).1.pairingLayout.visual
      = led.PairingVisual.fadingShrinkingColor (some (0, 255, 0)) 2000 :=
  (DisplayResetMode_display (led.sampleEnv (some 5)) led.sampleController
    { Mode := "reboot", Duration := 2000, Hold := false }).2.2.1 rfl

section LoopLemmas

open led

theorem led.plainWrite_state {Col L : Type} (env : Env Col L) (c : LedController Col L)
    (img : Option RGBA) :
    (plainWrite env c img).state
      = { c with serial := WriteLEDMatrix img c.serial } := by
  unfold plainWrite
  cases env.writeTime c.serial.written.length <;> rfl

theorem led.watchdogWrite_state {Col L : Type} (env : Env Col L) (c : LedController Col L)
    (img : Option RGBA) :
    (watchdogWrite env c img).state
      = { c with serial := WriteLEDMatrix img c.serial } := by
  unfold watchdogWrite
  cases env.writeTime c.serial.written.length with
  | none => rfl
  | some d => by_cases h : d ≤ 10000 <;> simp [h, Run.state]

/-- The interactive branch from `Render` on: the layout is the rendered one, and the
image it returned is the only one written, or none when `Render` fails. -/
theorem led.renderControl_state {Col L : Type} (env : Env Col L) (c : LedController Col L)
    (layout : L) :
    (c.renderControl env layout).state.controlLayout = some (env.Render layout).1
    ∧ (c.renderControl env layout).state.serial.written
        = c.serial.written ++
          (match (env.Render layout).2.2.2 with
           | some _ => []
           | none => [(env.Render layout).2.1]) := by
  simp only [LedController.renderControl]
  cases herr : (env.Render layout).2.2.2 with
  | some e => simp [Run.state]
  | none =>
    simp only []
    have hw := led.watchdogWrite_state env
      ({ c with controlLayout := some (env.Render layout).1 } : LedController Col L)
      (env.Render layout).2.1
    cases hr : watchdogWrite env
      ({ c with controlLayout := some (env.Render layout).1 } : LedController Col L)
      (env.Render layout).2.1 with
    | ok c2 =>
      rw [hr] at hw
      simp only [Run.state] at hw
      cases (env.Render layout).2.2.1 <;> simp [Run.state, hw, WriteLEDMatrix]
    | exited c2 =>
      rw [hr] at hw
      simp only [Run.state] at hw
      simp [Run.state, hw, WriteLEDMatrix]
    | stuck c2 =>
      rw [hr] at hw
      simp only [Run.state] at hw
      simp [Run.state, hw, WriteLEDMatrix]

/-- A tick in pairing mode leaves the control mode and the interactive layout alone. -/
theorem led.tick_pairing_keeps_layout {Col L : Type} (env : Env Col L)
    (c : LedController Col L) (h : c.controlEnabled = false) :
    (c.tick env).state.controlLayout = c.controlLayout
    ∧ (c.tick env).state.controlEnabled = false := by
  simp only [LedController.tick]
  by_cases hw : c.waiting = true
  · simp [hw, Run.state, h]
  · simp only [hw, h, if_false, Bool.false_eq_true]
    cases (env.RenderPairing c.pairingLayout).2 with
    | some e => simp [Run.state, h]
    | none =>
      simp only []
      rw [led.plainWrite_state]
      simp [h]

theorem led.ticks_pairing_keep_layout {Col L : Type} (env : Env Col L) (n : Nat) :
    ∀ c : LedController Col L, c.controlEnabled = false →
      (LedController.ticks env n c).state.controlLayout = c.controlLayout
      ∧ (LedController.ticks env n c).state.controlEnabled = false := by
  induction n with
  | zero =>
    intro c h
    exact ⟨rfl, h⟩
  | succ n ih =>
    intro c h
    have ht := led.tick_pairing_keeps_layout env c h
    unfold LedController.ticks
    cases hr : c.tick env with
    | ok c1 =>
      rw [hr] at ht
      simp only [Run.state] at ht
      have := ih c1 ht.2
      simp only []
      rw [ht.1] at this
      exact this
    | exited c1 =>
      rw [hr] at ht
      exact ht
    | stuck c1 =>
      rw [hr] at ht
      exact ht

end LoopLemmas

section EnableLemmas

open led

theorem led.disable_enable {Col L : Type} (c : LedController Col L) :
    (c.DisableControl.1.EnableControl).1
      = { c with controlEnabled := true, waiting := false } := by
  simp only [LedController.DisableControl, LedController.EnableControl,
    LedController.gotCommand]
  cases hw : c.waiting <;> simp [hw]

theorem led.enable_fields {Col L : Type} (c : LedController Col L) :
    c.EnableControl.1.controlEnabled = true ∧ c.EnableControl.1.waiting = false
    ∧ c.EnableControl.1.controlLayout = c.controlLayout
    ∧ c.EnableControl.1.serial = c.serial
    ∧ c.EnableControl.1.pairingLayout = c.pairingLayout := by
  simp only [LedController.EnableControl, LedController.gotCommand]
  cases hw : c.waiting <;> simp [hw]

theorem led.disable_fields {Col L : Type} (c : LedController Col L) :
    c.DisableControl.1.controlEnabled = false
    ∧ c.DisableControl.1.controlLayout = c.controlLayout := by
  simp only [LedController.DisableControl, LedController.gotCommand]
  cases hw : c.waiting <;> simp [hw]

theorem led.tick_interactive_some {Col L : Type} (env : Env Col L) (c : LedController Col L)
    (l : L) (he : c.controlEnabled = true) (hw : c.waiting = false)
    (hl : c.controlLayout = some l) : c.tick env = c.renderControl env l := by
  simp [LedController.tick, he, hw, hl]

theorem led.tick_interactive_none {Col L : Type} (env : Env Col L) (c : LedController Col L)
    (d : Nat) (he : c.controlEnabled = true) (hw : c.waiting = false)
    (hl : c.controlLayout = none) (hd : env.writeTime c.serial.written.length = some d) :
    c.tick env =
      LedController.renderControl env
        { c with serial := WriteLEDMatrix (some (NewRGBA 16 16)) c.serial,
                 controlLayout := some env.newLayout } env.newLayout := by
  simp [LedController.tick, he, hw, hl, plainWrite, hd]

/-- The pairing branch goes on after a write of any length. -/
theorem led.tick_pairing_write {Col L : Type} (env : Env Col L) (c : LedController Col L)
    (d : Nat) (he : c.controlEnabled = false) (hw : c.waiting = false)
    (hr : (env.RenderPairing c.pairingLayout).2 = none)
    (hd : env.writeTime c.serial.written.length = some d) :
    c.tick env = Run.ok { c with
      serial := WriteLEDMatrix (env.RenderPairing c.pairingLayout).1 c.serial } := by
  simp [LedController.tick, he, hw, hr, plainWrite, hd]

/-- The interactive branch exits when the write of the rendered image takes more than
ten seconds. -/
theorem led.tick_interactive_watchdog {Col L : Type} (env : Env Col L)
    (c : LedController Col L) (l : L) (d : Nat) (he : c.controlEnabled = true)
    (hw : c.waiting = false) (hl : c.controlLayout = some l)
    (hr : (env.Render l).2.2.2 = none)
    (hd : env.writeTime c.serial.written.length = some d) (hlate : 10000 < d) :
    c.tick env = Run.exited { c with
      controlLayout := some (env.Render l).1
      serial := WriteLEDMatrix (env.Render l).2.1 c.serial } := by
  have hnot : ¬ d ≤ 10000 := by omega
  simp [LedController.tick, he, hw, hl, LedController.renderControl, hr, watchdogWrite, hd,
    hnot]

end EnableLemmas

/-- C3, as stated, fails when a layout exists: the sample controller holds a layout
that has been rendered seven times; after `DisableControl` and `EnableControl` the next
tick writes the eighth rendering of that layout and no blank image, and the layout it
holds afterwards is not a newly built one. -/
theorem EnableControl_resumes_existing_layout :
    ((led.sampleController.DisableControl.1.EnableControl).1.tick
        (led.sampleEnv (some 5))).state.serial.written
      = led.sampleController.serial.written ++ [some (led.dot 7)]
    ∧ some (led.dot 7) ≠ some (led.NewRGBA 16 16)
    ∧ ((led.sampleController.DisableControl.1.EnableControl).1.tick
        (led.sampleEnv (some 5))).state.controlLayout = some 8
    ∧ ((led.sampleController.DisableControl.1.EnableControl).1.tick
        (led.sampleEnv (some 5))).state.controlLayout
      ≠ some ((led.sampleEnv (some 5)).Render (led.sampleEnv (some 5)).newLayout).1 := by
  refine ⟨rfl, ?_, rfl, by decide⟩
  intro h
  have hwidth := congrArg (fun o => Option.map led.RGBA.width o) h
  exact absurd hwidth (by decide)

/-- C3, amended: `DisableControl` followed by `EnableControl`, with any number of
pairing ticks in between, leaves the controller with control enabled, the loop not
parked and the interactive layout it had. The next tick then renders the existing
layout and writes only what it rendered; only when no layout has been built yet does
the tick write the blank 16x16 image first, build the layout and render that. -/
theorem EnableControl_builds_layout_only_if_missing {Col L : Type} (env : led.Env Col L)
    (c : led.LedController Col L) :
    (∀ n : Nat,
        ((led.LedController.ticks env n c.DisableControl.1).state.EnableControl).1.controlLayout
          = c.controlLayout
        ∧ ((led.LedController.ticks env n c.DisableControl.1).state.EnableControl).1.controlEnabled
          = true
        ∧ ((led.LedController.ticks env n c.DisableControl.1).state.EnableControl).1.waiting
          = false)
    ∧ (∀ l : L, c.controlLayout = some l →
        ((c.DisableControl.1.EnableControl).1.tick env).state.controlLayout
          = some (env.Render l).1
        ∧ ((c.DisableControl.1.EnableControl).1.tick env).state.serial.written
          = c.serial.written ++
            (match (env.Render l).2.2.2 with
             | some _ => []
             | none => [(env.Render l).2.1]))
    ∧ (∀ d : Nat, c.controlLayout = none → env.writeTime c.serial.written.length = some d →
        ((c.DisableControl.1.EnableControl).1.tick env).state.controlLayout
          = some (env.Render env.newLayout).1
        ∧ ((c.DisableControl.1.EnableControl).1.tick env).state.serial.written
          = c.serial.written ++ some (led.NewRGBA 16 16) ::
            (match (env.Render env.newLayout).2.2.2 with
             | some _ => []
             | none => [(env.Render env.newLayout).2.1])) := by
  refine ⟨?_, ?_, ?_⟩
  · intro n
    have hd := led.disable_fields c
    have ht := led.ticks_pairing_keep_layout env n c.DisableControl.1 hd.1
    have he := led.enable_fields (led.LedController.ticks env n c.DisableControl.1).state
    exact ⟨by rw [he.2.2.1, ht.1, hd.2], he.1, he.2.1⟩
  · intro l hl
    have ht := led.tick_interactive_some env
      ({ c with controlEnabled := true, waiting := false } : led.LedController Col L)
      l rfl rfl hl
    rw [led.disable_enable, ht]
    exact led.renderControl_state env _ l
  · intro d hl hd
    have ht := led.tick_interactive_none env
      ({ c with controlEnabled := true, waiting := false } : led.LedController Col L)
      d rfl rfl hl hd
    rw [led.disable_enable, ht]
    have h := led.renderControl_state env
      ({ ({ c with controlEnabled := true, waiting := false } : led.LedController Col L) with
          serial := led.WriteLEDMatrix (some (led.NewRGBA 16 16)) c.serial,
          controlLayout := some env.newLayout }) env.newLayout
    refine ⟨h.1, ?_⟩
    rw [h.2]
    simp only [led.WriteLEDMatrix, List.append_assoc]
    rfl

/-- C3 at the sample controller, whose layout has been rendered seven times: the tick
after `DisableControl` and `EnableControl` renders it an eighth time. -/
theorem EnableControl_builds_layout_only_if_missing_witness :
    ((led.sampleController.DisableControl.1.EnableControl).1.tick
        (led.sampleEnv (some 5))).state.controlLayout = some 8 :=
  ((EnableControl_builds_layout_only_if_missing (led.sampleEnv (some 5))
    led.sampleController).2.1 7 rfl).1

/-- At the failing input of C9: in pairing mode, with every write taking 11 seconds,
the tick goes on instead of exiting, and the next tick writes a further image; with a
write that never returns the loop is blocked and the process does not exit. The same
11-second write in interactive mode ends the process. -/
theorem pairing_write_without_watchdog :
    led.sampleController.tick (led.sampleEnv (some 11000))
      = led.Run.ok { led.sampleController with
          serial := { baud := 230400, isOpen := true,
                      written := [some (led.NewRGBA 16 16), some (led.dot 255)] } }
    ∧ (led.LedController.ticks (led.sampleEnv (some 11000)) 2
          led.sampleController).state.serial.written
        = [some (led.NewRGBA 16 16), some (led.dot 255), some (led.dot 255)]
    ∧ led.sampleController.tick (led.sampleEnv none)
      = led.Run.stuck { led.sampleController with
          serial := { baud := 230400, isOpen := true,
                      written := [some (led.NewRGBA 16 16), some (led.dot 255)] } }
    ∧ (led.sampleController.EnableControl).1.tick (led.sampleEnv (some 11000))
      = led.Run.exited { led.sampleController with
          controlEnabled := true, controlLayout := some 8,
          serial := { baud := 230400, isOpen := true,
                      written := [some (led.NewRGBA 16 16), some (led.dot 7)] } } :=
  ⟨rfl, rfl, rfl, rfl⟩

section StartupLemmas

open led

theorem led.initBuffer_take3 (data : List Nat) :
    (initBuffer data).take 3 =
      [(data.get? 0).getD 0, (data.get? 1).getD 0, (data.get? 2).getD 0] := by
  match data with
  | [] => rfl
  | [a] => rfl
  | [a, b] => rfl
  | a :: b :: c :: rest => simp [initBuffer]

theorem led.initBuffer_length (data : List Nat) : (initBuffer data).length = 16 := by
  simp [initBuffer]
  omega

theorem led.ledMagic_eq : ledMagic = [76, 69, 68] := by decide

end StartupLemmas

/-- C6: when the port opens and the read of the 16-byte buffer returns without error,
`GetLEDConnection` returns the open port and nil exactly when bytes 0, 1 and 2 of the
buffer are `L`, `E`, `D` (76, 69, 68); for any other leading bytes it closes the port as
its last action and returns the error `Bad init string..`. A read of `LED-v1`
succeeds and a read of `ERR` fails. -/
theorem GetLEDConnection_magic (data : List Nat) (baud : Nat) :
    (led.initBuffer data).length = 16
    ∧ ((led.GetLEDConnection (led.PortBehaviour.reads data) baud).1
          = led.ConnResult.ok { baud := baud, isOpen := true, written := [] }
        ↔ ((led.initBuffer data).get? 0 = some 76 ∧ (led.initBuffer data).get? 1 = some 69
            ∧ (led.initBuffer data).get? 2 = some 68))
    ∧ (¬ ((led.initBuffer data).get? 0 = some 76 ∧ (led.initBuffer data).get? 1 = some 69
            ∧ (led.initBuffer data).get? 2 = some 68) →
        led.GetLEDConnection (led.PortBehaviour.reads data) baud
          = (led.ConnResult.error "Bad init string..",
              [led.ConnEffect.resetMatrix, led.ConnEffect.openPort baud,
                led.ConnEffect.readInit, led.ConnEffect.closePort baud]))
    ∧ (((led.initBuffer data).get? 0 = some 76 ∧ (led.initBuffer data).get? 1 = some 69
            ∧ (led.initBuffer data).get? 2 = some 68) →
        led.GetLEDConnection (led.PortBehaviour.reads data) baud
          = (led.ConnResult.ok { baud := baud, isOpen := true, written := [] },
              [led.ConnEffect.resetMatrix, led.ConnEffect.openPort baud,
                led.ConnEffect.readInit]))
    ∧ (led.GetLEDConnection (led.PortBehaviour.reads (led.bytesOf "LED-v1")) baud).1
        = led.ConnResult.ok { baud := baud, isOpen := true, written := [] }
    ∧ (led.GetLEDConnection (led.PortBehaviour.reads (led.bytesOf "ERR")) baud).1
        = led.ConnResult.error "Bad init string.." := by
  have hlen := led.initBuffer_length data
  have hbytes : ((led.initBuffer data).get? 0 = some 76 ∧ (led.initBuffer data).get? 1 = some 69
      ∧ (led.initBuffer data).get? 2 = some 68) ↔ (led.initBuffer data).take 3 = led.ledMagic := by
    rw [led.ledMagic_eq]
    generalize led.initBuffer data = buf at hlen
    match buf, hlen with
    | a :: b :: c :: rest, _ => simp
  have hok : (led.initBuffer data).take 3 = led.ledMagic →
      led.GetLEDConnection (led.PortBehaviour.reads data) baud
        = (led.ConnResult.ok { baud := baud, isOpen := true, written := [] },
            [led.ConnEffect.resetMatrix, led.ConnEffect.openPort baud,
              led.ConnEffect.readInit]) := by
    intro h
    simp [led.GetLEDConnection, h]
  have hbad : (led.initBuffer data).take 3 ≠ led.ledMagic →
      led.GetLEDConnection (led.PortBehaviour.reads data) baud
        = (led.ConnResult.error "Bad init string..",
            [led.ConnEffect.resetMatrix, led.ConnEffect.openPort baud,
              led.ConnEffect.readInit, led.ConnEffect.closePort baud]) := by
    intro h
    simp [led.GetLEDConnection, h]
  refine ⟨hlen, ?_, ?_, ?_, ?_, ?_⟩
  · rw [hbytes]
    constructor
    · intro h
      by_contra hne
      rw [hbad hne] at h
      exact absurd h (by simp)
    · intro h
      rw [hok h]
  · intro h
    exact hbad (fun hm => h (hbytes.mpr hm))
  · intro h
    exact hok (hbytes.mp h)
  · have h : (led.initBuffer (led.bytesOf "LED-v1")).take 3 = led.ledMagic := by decide
    simp [led.GetLEDConnection, h]
  · have h : (led.initBuffer (led.bytesOf "ERR")).take 3 ≠ led.ledMagic := by decide
    simp [led.GetLEDConnection, h]

/-- C6 at the read `LED-v1` on the double rate: the three bytes match and the open port
is returned with no close. -/
theorem GetLEDConnection_magic_witness :
    led.GetLEDConnection (led.PortBehaviour.reads (led.bytesOf "LED-v1")) 230400
      = (led.ConnResult.ok { baud := 230400, isOpen := true, written := [] },
          [led.ConnEffect.resetMatrix, led.ConnEffect.openPort 230400,
            led.ConnEffect.readInit]) :=
  (GetLEDConnection_magic (led.bytesOf "LED-v1") 230400).2.2.2.1 (by decide)

/-- C5, as stated, fails for a handshake read failure: against a device whose init
string cannot be read on the first attempt (and that would answer `LED-v1` on a second
one), `NewLedController` makes the one attempt at 230400 and ends in `log.Fatalf`; no
retry at 115200 is made. -/
theorem NewLedController_read_failure_not_retried :
    (led.NewLedController (led.sampleEnv (some 5)) led.readFailsOnce).attempts = [230400]
    ∧ (led.NewLedController (led.sampleEnv (some 5)) led.readFailsOnce).result.isFatal = true
    ∧ (led.NewLedController (led.sampleEnv (some 5)) led.readFailsOnce).attempts
        ≠ [230400, 115200]
    ∧ (led.GetLEDConnection (led.readFailsOnce 1 115200) 115200).1
        = led.ConnResult.ok { baud := 115200, isOpen := true, written := [] } := by
  refine ⟨by decide, by decide, by decide, by decide⟩

/-- C5, amended: the first attempt of `NewLedController` is at 2 * 115200 and there
are never more than two attempts. A first attempt that succeeds is the only one. A
first attempt that fails with a returned error, which is a port-open failure or bad
magic bytes, is followed by exactly one retry at 115200, and the start is fatal only if
the retry does not return a port. A first attempt whose handshake read fails is fatal
at once, with no retry. -/
theorem NewLedController_baud_fallback {Col L : Type} (env : led.Env Col L)
    (dev : Nat → Nat → led.PortBehaviour) :
    (led.NewLedController env dev).attempts.head? = some (2 * 115200)
    ∧ ((led.NewLedController env dev).attempts = [2 * 115200]
        ∨ (led.NewLedController env dev).attempts = [2 * 115200, 115200])
    ∧ (∀ s : led.Serial, (led.GetLEDConnection (dev 0 230400) 230400).1 = led.ConnResult.ok s →
        (led.NewLedController env dev).attempts = [230400]
        ∧ (led.NewLedController env dev).result = led.NewLedController.finish env s
        ∧ (led.NewLedController env dev).result.isFatal = false)
    ∧ (∀ err : String, dev 0 230400 = led.PortBehaviour.readFails err →
        (led.NewLedController env dev).attempts = [230400]
        ∧ (led.NewLedController env dev).result.isFatal = true)
    ∧ (((∃ err : String, dev 0 230400 = led.PortBehaviour.openFails err)
          ∨ (∃ data : List Nat, dev 0 230400 = led.PortBehaviour.reads data
              ∧ (led.initBuffer data).take 3 ≠ led.ledMagic)) →
        (led.NewLedController env dev).attempts = [230400, 115200]
        ∧ (∀ s : led.Serial,
            (led.GetLEDConnection (dev 1 115200) 115200).1 = led.ConnResult.ok s →
            (led.NewLedController env dev).result = led.NewLedController.finish env s
            ∧ (led.NewLedController env dev).result.isFatal = false)
        ∧ ((∀ s : led.Serial,
              (led.GetLEDConnection (dev 1 115200) 115200).1 ≠ led.ConnResult.ok s) →
            (led.NewLedController env dev).result.isFatal = true)) := by
  have hfin : ∀ s : led.Serial, (led.NewLedController.finish env s).isFatal = false := by
    intro s
    unfold led.NewLedController.finish
    cases env.writeTime s.written.length <;> rfl
  have hb : led.baudRate * 2 = 230400 := rfl
  have hb1 : led.baudRate = 115200 := rfl
  have herr : ∀ e : String,
      (led.GetLEDConnection (dev 0 230400) 230400).1 = led.ConnResult.error e →
      (led.NewLedController env dev).attempts = [230400, 115200]
      ∧ (∀ s : led.Serial,
          (led.GetLEDConnection (dev 1 115200) 115200).1 = led.ConnResult.ok s →
          (led.NewLedController env dev).result = led.NewLedController.finish env s
          ∧ (led.NewLedController env dev).result.isFatal = false)
      ∧ ((∀ s : led.Serial,
            (led.GetLEDConnection (dev 1 115200) 115200).1 ≠ led.ConnResult.ok s) →
          (led.NewLedController env dev).result.isFatal = true) := by
    intro e he
    refine ⟨?_, ?_, ?_⟩
    · simp only [led.NewLedController, hb, hb1, he]
      cases (led.GetLEDConnection (dev 1 115200) 115200).1 <;> rfl
    · intro s hs
      simp only [led.NewLedController, hb, hb1, he, hs]
      exact ⟨trivial, hfin s⟩
    · intro hne
      simp only [led.NewLedController, hb, hb1, he]
      cases h2 : (led.GetLEDConnection (dev 1 115200) 115200).1 with
      | ok s => exact absurd h2 (hne s)
      | error e2 => rfl
      | fatal => rfl
  refine ⟨?_, ?_, ?_, ?_, ?_⟩
  · simp only [led.NewLedController, hb, hb1]
    cases (led.GetLEDConnection (dev 0 230400) 230400).1 with
    | ok s => rfl
    | fatal => rfl
    | error e => cases (led.GetLEDConnection (dev 1 115200) 115200).1 <;> rfl
  · simp only [led.NewLedController, hb, hb1]
    cases (led.GetLEDConnection (dev 0 230400) 230400).1 with
    | ok s => exact Or.inl rfl
    | fatal => exact Or.inl rfl
    | error e =>
      cases (led.GetLEDConnection (dev 1 115200) 115200).1 <;> exact Or.inr rfl
  · intro s hs
    simp only [led.NewLedController, hb, hs]
    exact ⟨trivial, trivial, hfin s⟩
  · intro err hd
    have h1 : (led.GetLEDConnection (dev 0 230400) 230400).1 = led.ConnResult.fatal := by
      rw [hd]
      rfl
    simp only [led.NewLedController, hb, h1]
    exact ⟨trivial, rfl⟩
  · rintro (⟨err, hd⟩ | ⟨data, hd, hbad⟩)
    · apply herr err
      rw [hd]
      rfl
    · apply herr "Bad init string.."
      rw [hd]
      simp [led.GetLEDConnection, hbad]

/-- C5 at a device that answers `ERR` at 230400 and `LED-v1` at 115200: the bad magic
bytes lead to the one retry, which succeeds. -/
theorem NewLedController_baud_fallback_witness :
    (led.NewLedController (led.sampleEnv (some 5)) led.slowDevice).attempts = [230400, 115200]
    ∧ (led.NewLedController (led.sampleEnv (some 5)) led.slowDevice).result.isFatal = false := by
  have h := (NewLedController_baud_fallback (led.sampleEnv (some 5)) led.slowDevice).2.2.2.2
    (Or.inr ⟨led.bytesOf "ERR", rfl, by decide⟩)
  exact ⟨h.1, (h.2.1 { baud := 115200, isOpen := true, written := [] } (by decide)).2⟩
